import Mathlib

/-!
Shallow embedding of `src/PhotoSlider.tsx` from react-photo-view.

The slider component is a React class component; its state
(`PhotoSliderState`) and its event handlers are embedded as a Lean
structure and pure state-transition functions.  JavaScript numbers are
modelled as exact rationals (`ℚ`), the photo index as an integer (`ℤ`),
and `number | undefined` fields as `Option ℚ`.  Side effects on the
props callbacks (`onClose`, `onIndexChange`) are recorded as an emitted
event list.

The constants `defaultOpacity`, `horizontalOffset` and `maxMoveOffset`
are imported by the component from `variables.ts`, a module that is not
part of the sources under review; they are therefore kept abstract as
fields of the environment `Env`, together with the window dimensions and
the component props the handlers read (`images`, `index`).
-/

namespace PhotoSlider

/-- An entry of the `images` prop (`dataType`): a `src` url with an
optional `key` and optional `intro` overlay text. -/
structure Image where
  key : Option String
  src : String
  intro : Option String
deriving Repr, DecidableEq, Inhabited

/-- The environment of a handler call: window dimensions, the component
props read by the handlers, and the numeric constants imported from
`variables.ts`. -/
structure Env where
  innerWidth : ℚ
  innerHeight : ℚ
  /-- the `images` prop -/
  images : List Image
  /-- the optional `index` prop -/
  index : Option ℤ
  /-- `horizontalOffset` from `variables.ts` -/
  horizontalOffset : ℚ
  /-- `maxMoveOffset` from `variables.ts` -/
  maxMoveOffset : ℚ
  /-- `defaultOpacity` from `variables.ts` -/
  defaultOpacity : ℚ
deriving Repr, DecidableEq

/-- The component state record `PhotoSliderState`. -/
structure SliderState where
  translateX : ℚ
  photoIndex : ℤ
  touched : Bool
  shouldTransition : Bool
  lastClientX : Option ℚ
  lastClientY : Option ℚ
  backdropOpacity : ℚ
  overlayVisible : Bool
  canPullClose : Bool
deriving Repr, DecidableEq

/-- Calls made to the props callbacks during a handler run. -/
inductive SliderEvent where
  /-- `onIndexChange(i)` was invoked -/
  | indexChange (i : ℤ)
  /-- `onClose()` was invoked -/
  | close
deriving Repr, DecidableEq

/-- The state installed by the constructor. -/
def initialState (env : Env) : SliderState where
  translateX := 0
  photoIndex := 0
  touched := false
  shouldTransition := true
  lastClientX := none
  lastClientY := none
  backdropOpacity := env.defaultOpacity
  overlayVisible := true
  canPullClose := true

/-- Embeds `handleIndexChange(photoIndex, shouldTransition = true)`: align the
slider on page `photoIndex`, clear the gesture baselines, and notify
`onIndexChange`. -/
def handleIndexChange (env : Env) (s : SliderState) (photoIndex : ℤ)
    (shouldTransition : Bool := true) : SliderState × List SliderEvent :=
  let singlePageWidth := env.innerWidth + env.horizontalOffset
  let translateX := -singlePageWidth * (photoIndex : ℚ)
  ({ s with
      touched := false
      lastClientX := none
      lastClientY := none
      translateX := translateX
      photoIndex := photoIndex
      shouldTransition := shouldTransition },
   [SliderEvent.indexChange photoIndex])

/-- Embeds `handlePrevious(shouldTransition?)`: go to the previous page when the
index is positive, otherwise do nothing.  The optional argument is
`undefined | boolean`; `handleIndexChange` defaults it to `true`. -/
def handlePrevious (env : Env) (s : SliderState)
    (shouldTransition : Option Bool) : SliderState × List SliderEvent :=
  if s.photoIndex > 0 then
    handleIndexChange env s (s.photoIndex - 1) (shouldTransition.getD true)
  else (s, [])

/-- Embeds `handleNext(shouldTransition?)`: go to the next page when the index
is below the last one, otherwise do nothing. -/
def handleNext (env : Env) (s : SliderState)
    (shouldTransition : Option Bool) : SliderState × List SliderEvent :=
  if s.photoIndex < (env.images.length : ℤ) - 1 then
    handleIndexChange env s (s.photoIndex + 1) (shouldTransition.getD true)
  else (s, [])

/-- Embeds `handleReachVerticalMove(clientY, scale)`: on the first move record
the vertical baseline; afterwards fade the backdrop with the absolute
vertical offset when `scale === 1`, and keep the default opacity (and
forbid pull-close) otherwise.  `scale` is an optional argument
(`scale?: number`). -/
def handleReachVerticalMove (env : Env) (s : SliderState) (clientY : ℚ)
    (scale : Option ℚ) : SliderState :=
  match s.lastClientY with
  | none =>
      { s with
          touched := true
          lastClientY := some clientY
          backdropOpacity := s.backdropOpacity
          canPullClose := true }
  | some lastClientY =>
      let offsetClientY := |clientY - lastClientY|
      let opacity :=
        max (min env.defaultOpacity
              (env.defaultOpacity - offsetClientY / 100 / 2)) 0
      { s with
          touched := true
          lastClientY := some lastClientY
          backdropOpacity := if scale = some 1 then opacity else env.defaultOpacity
          canPullClose := decide (scale = some 1) }

/-- Embeds `handleReachHorizontalMove(clientX)`: on the first move record the
horizontal baseline; afterwards pan the slider by the offset from the
baseline, halving the offset when overscrolling past the first or the
last image. -/
def handleReachHorizontalMove (env : Env) (s : SliderState)
    (clientX : ℚ) : SliderState :=
  match s.lastClientX with
  | none =>
      { s with
          touched := true
          lastClientX := some clientX
          translateX := s.translateX
          shouldTransition := true }
  | some lastClientX =>
      let originOffsetClientX := clientX - lastClientX
      let offsetClientX :=
        if (s.photoIndex = 0 ∧ originOffsetClientX > 0) ∨
           (s.photoIndex = (env.images.length : ℤ) - 1 ∧ originOffsetClientX < 0)
        then originOffsetClientX / 2
        else originOffsetClientX
      { s with
          touched := true
          lastClientX := some lastClientX
          translateX :=
            -(env.innerWidth + env.horizontalOffset) * (s.photoIndex : ℚ)
              + offsetClientX
          shouldTransition := true }

/-- Embeds `handleReachUp(clientX, clientY)`: on gesture release, turn the page
when the horizontal offset from the baseline passes `maxMoveOffset` and a
neighbouring page exists; otherwise snap back, reset the gesture
baselines and the backdrop, and close (via `onClose`) when the vertical
offset passes 14% of the window height and pull-close is allowed. -/
def handleReachUp (env : Env) (s : SliderState) (clientX clientY : ℚ) :
    SliderState × List SliderEvent :=
  let lastClientX := s.lastClientX.getD clientX
  let lastClientY := s.lastClientY.getD clientY
  let offsetClientX := clientX - lastClientX
  let offsetClientY := clientY - lastClientY
  if offsetClientX < -env.maxMoveOffset ∧
      s.photoIndex < (env.images.length : ℤ) - 1 then
    handleIndexChange env s (s.photoIndex + 1)
  else if offsetClientX > env.maxMoveOffset ∧ s.photoIndex > 0 then
    handleIndexChange env s (s.photoIndex - 1)
  else
    let singlePageWidth := env.innerWidth + env.horizontalOffset
    let currentTranslateX := -singlePageWidth * (s.photoIndex : ℚ)
    let isChangeVisible : Bool :=
      decide (|offsetClientY| > env.innerHeight * (14 / 100)) && s.canPullClose
    ({ s with
        touched := false
        translateX := currentTranslateX
        photoIndex := s.photoIndex
        lastClientX := none
        lastClientY := none
        backdropOpacity := env.defaultOpacity
        overlayVisible := if isChangeVisible then true else s.overlayVisible },
     if isChangeVisible then [SliderEvent.close] else [])

/-- Embeds `handleResize`: re-align the slider on the current page for the new
window width and clear the gesture baselines. -/
def handleResize (env : Env) (s : SliderState) : SliderState :=
  { s with
      translateX := -(env.innerWidth + env.horizontalOffset) * (s.photoIndex : ℚ)
      lastClientX := none
      lastClientY := none }

/-- Embeds `getDerivedStateFromProps(nextProps, prevState)`: when the `index`
prop is defined and differs from the state index, adopt it and re-align
the slider; otherwise return `null` (no state change). -/
def getDerivedStateFromProps (env : Env) (s : SliderState) :
    Option SliderState :=
  match env.index with
  | some i =>
      if i ≠ s.photoIndex then
        some { s with
            photoIndex := i
            translateX := -(env.innerWidth + env.horizontalOffset) * (i : ℚ) }
      else none
  | none => none

/-- Embeds `componentDidMount`: adopt the initial `index` prop (default `0`)
and align the slider on it. -/
def componentDidMount (env : Env) (s : SliderState) : SliderState :=
  let index := env.index.getD 0
  { s with
      translateX := (index : ℚ) * -(env.innerWidth + env.horizontalOffset)
      photoIndex := index }

/-! ### The part of `render` that the claims are about -/

/-- ECMAScript `list[i]` member access for an integer index: `undefined`
outside the bounds. -/
def jsIndex (l : List α) (i : ℤ) : Option α :=
  if 0 ≤ i then l.get? i.toNat else none

/-- ECMAScript `Array.prototype.slice(start, end)`: negative arguments
count from the end, and both are clamped to `[0, length]`. -/
def jsSlice (l : List α) (start stop : ℤ) : List α :=
  let len : ℤ := l.length
  let s := if start < 0 then max (len + start) 0 else min start len
  let e := if stop < 0 then max (len + stop) 0 else min stop len
  (l.drop s.toNat).take (e - s).toNat

/-- ECMAScript `Array.prototype.map` with the element index as second
callback argument, starting the index at `n`. -/
def mapWithIdx (f : ℕ → α → β) : ℕ → List α → List β
  | _, [] => []
  | n, a :: l => f n a :: mapWithIdx f (n + 1) l

/-- Embeds `const currentImage = images.length ? images[photoIndex] : undefined`. -/
def currentImage (env : Env) (s : SliderState) : Option Image :=
  if env.images.length ≠ 0 then jsIndex env.images s.photoIndex else none

/-- What `render` passes to each `PhotoView` of the visible window. -/
structure RenderedItem where
  item : Image
  realIndex : ℤ
  isActive : Bool
deriving Repr, DecidableEq

/-- The list of `PhotoView`s produced by `render`: the slice of at most
three adjacent images around `photoIndex`, each mapped to its
`realIndex` and `isActive` flag. -/
def renderItems (env : Env) (s : SliderState) : List RenderedItem :=
  let imageLength : ℤ := env.images.length
  let sliced :=
    jsSlice env.images (max (s.photoIndex - 1) 0)
      (min (s.photoIndex + 2) (imageLength + 1))
  mapWithIdx
    (fun index item =>
      let realIndex :=
        if s.photoIndex = 0 then s.photoIndex + (index : ℤ)
        else s.photoIndex - 1 + (index : ℤ)
      { item := item
        realIndex := realIndex
        isActive := decide (s.photoIndex = realIndex) })
    0 sliced

/-- The list of integers `a, a + 1, …, b` (empty when `b < a`). -/
def intRange (a b : ℤ) : List ℤ :=
  (List.range (b + 1 - a).toNat).map (fun k : ℕ => a + (k : ℤ))

/-! ### Concrete sample inputs, used to exercise the theorems -/

/-- A three-image gallery. -/
def sampleImages : List Image :=
  [⟨none, "a", none⟩, ⟨some "k", "b", some "hi"⟩, ⟨none, "c", none⟩]

/-- A sample environment: a 375×667 window, the three-image gallery, and
the constant values shipped in `variables.ts`. -/
def sampleEnv : Env where
  innerWidth := 375
  innerHeight := 667
  images := sampleImages
  index := none
  horizontalOffset := 20
  maxMoveOffset := 40
  defaultOpacity := 1

/-- A state resting on page 1 of `sampleEnv`, no gesture in progress. -/
def sampleRest : SliderState where
  translateX := -395
  photoIndex := 1
  touched := false
  shouldTransition := true
  lastClientX := none
  lastClientY := none
  backdropOpacity := 1
  overlayVisible := true
  canPullClose := true

/-- The state `sampleRest` with a horizontal gesture baseline established. -/
def sampleDragX : SliderState :=
  { sampleRest with lastClientX := some 200, touched := true }

/-- The state `sampleRest` with a vertical gesture baseline established. -/
def sampleDragY : SliderState :=
  { sampleRest with lastClientY := some 300, touched := true }

/-! ### Theorems -/

/-- C7: the gesture state machine establishes a baseline on the first
move without transforming anything.  A horizontal move with no recorded
`lastClientX` stores `clientX` as the baseline and marks the state
touched, leaving `translateX` unchanged; a vertical move with no
recorded `lastClientY` stores `clientY`, marks the state touched,
enables pull-close, and leaves `backdropOpacity` unchanged. -/
theorem firstMove_establishes_baseline (env : Env) (s : SliderState)
    (clientX clientY : ℚ) (scale : Option ℚ)
    (hx : s.lastClientX = none) (hy : s.lastClientY = none) :
    ((handleReachHorizontalMove env s clientX).lastClientX = some clientX ∧
      (handleReachHorizontalMove env s clientX).touched = true ∧
      (handleReachHorizontalMove env s clientX).translateX = s.translateX) ∧
    ((handleReachVerticalMove env s clientY scale).lastClientY = some clientY ∧
      (handleReachVerticalMove env s clientY scale).touched = true ∧
      (handleReachVerticalMove env s clientY scale).canPullClose = true ∧
      (handleReachVerticalMove env s clientY scale).backdropOpacity =
        s.backdropOpacity) := by
  simp [handleReachHorizontalMove, handleReachVerticalMove, hx, hy]

/-- Witness for C7: the first move of each direction on `sampleRest`. -/
theorem firstMove_establishes_baseline_witness :
    sampleRest.lastClientX = none ∧ sampleRest.lastClientY = none ∧
    ((handleReachHorizontalMove sampleEnv sampleRest 200).lastClientX =
        some 200 ∧
      (handleReachHorizontalMove sampleEnv sampleRest 200).touched = true ∧
      (handleReachHorizontalMove sampleEnv sampleRest 200).translateX =
        sampleRest.translateX) ∧
    ((handleReachVerticalMove sampleEnv sampleRest 300 (some 1)).lastClientY =
        some 300 ∧
      (handleReachVerticalMove sampleEnv sampleRest 300 (some 1)).touched =
        true ∧
      (handleReachVerticalMove sampleEnv sampleRest 300 (some 1)).canPullClose =
        true ∧
      (handleReachVerticalMove sampleEnv sampleRest 300
          (some 1)).backdropOpacity = sampleRest.backdropOpacity) :=
  ⟨by decide, by decide,
    (firstMove_establishes_baseline sampleEnv sampleRest 200 300 (some 1)
        (by decide) (by decide)).1,
    (firstMove_establishes_baseline sampleEnv sampleRest 200 300 (some 1)
        (by decide) (by decide)).2⟩

/-- C4: with an established vertical baseline, a vertical move at
`scale = 1` fades the backdrop to
`max (min defaultOpacity (defaultOpacity - |Δy| / 100 / 2)) 0` and keeps
pull-close enabled, while at `scale ≠ 1` it restores the default opacity
and disables pull-close. -/
theorem verticalMove_opacity (env : Env) (s : SliderState)
    (clientY lastY : ℚ) (scale : Option ℚ)
    (hy : s.lastClientY = some lastY) :
    (scale = some 1 →
      (handleReachVerticalMove env s clientY scale).backdropOpacity =
          max (min env.defaultOpacity
            (env.defaultOpacity - |clientY - lastY| / 100 / 2)) 0 ∧
        (handleReachVerticalMove env s clientY scale).canPullClose = true) ∧
    (scale ≠ some 1 →
      (handleReachVerticalMove env s clientY scale).backdropOpacity =
          env.defaultOpacity ∧
        (handleReachVerticalMove env s clientY scale).canPullClose = false) := by
  constructor
  · intro h1
    simp [handleReachVerticalMove, hy, h1]
  · intro h1
    simp [handleReachVerticalMove, hy, h1]

/-- Witness for C4: a 50px pull at scale 1 on `sampleDragY`. -/
theorem verticalMove_opacity_witness :
    sampleDragY.lastClientY = some 300 ∧ (some 1 : Option ℚ) = some 1 ∧
    ((handleReachVerticalMove sampleEnv sampleDragY 350
          (some 1)).backdropOpacity =
        max (min sampleEnv.defaultOpacity
          (sampleEnv.defaultOpacity - |(350 : ℚ) - 300| / 100 / 2)) 0 ∧
      (handleReachVerticalMove sampleEnv sampleDragY 350
          (some 1)).canPullClose = true) :=
  ⟨by decide, rfl,
    (verticalMove_opacity sampleEnv sampleDragY 350 300 (some 1)
        (by decide)).1 rfl⟩

/-- C2: with an established horizontal baseline, a horizontal move past
the first image (index 0, positive offset) or past the last image (last
index, negative offset) applies only half of the offset on top of the
resting position. -/
theorem horizontalMove_edge_clamp (env : Env) (s : SliderState)
    (clientX lastX : ℚ)
    (hx : s.lastClientX = some lastX)
    (hedge : (s.photoIndex = 0 ∧ clientX - lastX > 0) ∨
      (s.photoIndex = (env.images.length : ℤ) - 1 ∧ clientX - lastX < 0)) :
    (handleReachHorizontalMove env s clientX).translateX =
      -(env.innerWidth + env.horizontalOffset) * (s.photoIndex : ℚ) +
        (clientX - lastX) / 2 := by
  simp only [handleReachHorizontalMove, hx]
  rw [if_pos hedge]

/-- Witness for C2: overscrolling right past the last image. -/
theorem horizontalMove_edge_clamp_witness :
    ({ sampleDragX with photoIndex := 2 } : SliderState).lastClientX =
        some 200 ∧
    ((({ sampleDragX with photoIndex := 2 } : SliderState).photoIndex = 0 ∧
        (150 : ℚ) - 200 > 0) ∨
      (({ sampleDragX with photoIndex := 2 } : SliderState).photoIndex =
          (sampleEnv.images.length : ℤ) - 1 ∧ (150 : ℚ) - 200 < 0)) ∧
    ((handleReachHorizontalMove sampleEnv
        { sampleDragX with photoIndex := 2 } 150).translateX =
      -(sampleEnv.innerWidth + sampleEnv.horizontalOffset) *
          (({ sampleDragX with photoIndex := 2 } : SliderState).photoIndex : ℚ) +
        ((150 : ℚ) - 200) / 2) :=
  ⟨by decide, Or.inr ⟨by decide, by norm_num⟩,
    horizontalMove_edge_clamp sampleEnv { sampleDragX with photoIndex := 2 }
      150 200 (by decide) (Or.inr ⟨by decide, by norm_num⟩)⟩

/-- C5: with an established horizontal baseline and away from the edges,
a horizontal move pans the slider by the full offset from the baseline
on top of the resting position, leaving `photoIndex` and `lastClientX`
unchanged and marking the state touched. -/
theorem horizontalMove_pans (env : Env) (s : SliderState)
    (clientX lastX : ℚ)
    (hx : s.lastClientX = some lastX)
    (hedge : ¬((s.photoIndex = 0 ∧ clientX - lastX > 0) ∨
      (s.photoIndex = (env.images.length : ℤ) - 1 ∧ clientX - lastX < 0))) :
    (handleReachHorizontalMove env s clientX).translateX =
        -(env.innerWidth + env.horizontalOffset) * (s.photoIndex : ℚ) +
          (clientX - lastX) ∧
      (handleReachHorizontalMove env s clientX).photoIndex = s.photoIndex ∧
      (handleReachHorizontalMove env s clientX).lastClientX = some lastX ∧
      (handleReachHorizontalMove env s clientX).touched = true := by
  simp only [handleReachHorizontalMove, hx]
  rw [if_neg hedge]
  simp

/-- Witness for C5: a 50px left pan from the middle page. -/
theorem horizontalMove_pans_witness :
    sampleDragX.lastClientX = some 200 ∧
    ¬((sampleDragX.photoIndex = 0 ∧ (150 : ℚ) - 200 > 0) ∨
      (sampleDragX.photoIndex = (sampleEnv.images.length : ℤ) - 1 ∧
        (150 : ℚ) - 200 < 0)) ∧
    ((handleReachHorizontalMove sampleEnv sampleDragX 150).translateX =
        -(sampleEnv.innerWidth + sampleEnv.horizontalOffset) *
            (sampleDragX.photoIndex : ℚ) + ((150 : ℚ) - 200) ∧
      (handleReachHorizontalMove sampleEnv sampleDragX 150).photoIndex =
        sampleDragX.photoIndex ∧
      (handleReachHorizontalMove sampleEnv sampleDragX 150).lastClientX =
        some 200 ∧
      (handleReachHorizontalMove sampleEnv sampleDragX 150).touched = true) :=
  ⟨by decide, by decide,
    horizontalMove_pans sampleEnv sampleDragX 150 200 (by decide) (by decide)⟩

/-- C1: page-turn decisions on gesture release are threshold decisions.
With an established horizontal baseline and a nonnegative
`maxMoveOffset` (the shipped constant is positive), `handleReachUp`
moves to `photoIndex + 1` exactly when the offset is below
`-maxMoveOffset` and a next page exists, moves to `photoIndex - 1`
exactly when the offset is above `maxMoveOffset` and a previous page
exists, and otherwise leaves `photoIndex` unchanged. -/
theorem reachUp_page_turn_threshold (env : Env) (s : SliderState)
    (clientX clientY lastX : ℚ)
    (hx : s.lastClientX = some lastX) (hm : 0 ≤ env.maxMoveOffset) :
    (((handleReachUp env s clientX clientY).1.photoIndex =
        s.photoIndex + 1) ↔
      (clientX - lastX < -env.maxMoveOffset ∧
        s.photoIndex < (env.images.length : ℤ) - 1)) ∧
    (((handleReachUp env s clientX clientY).1.photoIndex =
        s.photoIndex - 1) ↔
      (clientX - lastX > env.maxMoveOffset ∧ s.photoIndex > 0)) ∧
    (¬(clientX - lastX < -env.maxMoveOffset ∧
        s.photoIndex < (env.images.length : ℤ) - 1) →
      ¬(clientX - lastX > env.maxMoveOffset ∧ s.photoIndex > 0) →
      (handleReachUp env s clientX clientY).1.photoIndex = s.photoIndex) := by
  simp only [handleReachUp, hx, Option.getD_some]
  by_cases h1 : clientX - lastX < -env.maxMoveOffset ∧
      s.photoIndex < (env.images.length : ℤ) - 1
  · rw [if_pos h1]
    refine ⟨iff_of_true rfl h1, ?_, fun hn1 _ => absurd h1 hn1⟩
    constructor
    · intro hEq
      have hEq2 : s.photoIndex + 1 = s.photoIndex - 1 := hEq
      omega
    · rintro ⟨hgt, -⟩
      exact absurd hgt (by linarith [h1.1])
  · rw [if_neg h1]
    by_cases h2 : clientX - lastX > env.maxMoveOffset ∧ s.photoIndex > 0
    · rw [if_pos h2]
      refine ⟨?_, iff_of_true rfl h2, fun _ hn2 => absurd h2 hn2⟩
      constructor
      · intro hEq
        have hEq2 : s.photoIndex - 1 = s.photoIndex + 1 := hEq
        omega
      · intro hc1
        exact absurd hc1 h1
    · rw [if_neg h2]
      refine ⟨?_, ?_, fun _ _ => rfl⟩
      · constructor
        · intro hEq
          have hEq2 : s.photoIndex = s.photoIndex + 1 := hEq
          omega
        · intro hc1
          exact absurd hc1 h1
      · constructor
        · intro hEq
          have hEq2 : s.photoIndex = s.photoIndex - 1 := hEq
          omega
        · intro hc2
          exact absurd hc2 h2

/-- Witness for C1: a 100px left flick from page 1 turns to page 2. -/
theorem reachUp_page_turn_threshold_witness :
    sampleDragX.lastClientX = some 200 ∧
    (0 : ℚ) ≤ sampleEnv.maxMoveOffset ∧
    (handleReachUp sampleEnv sampleDragX 100 0).1.photoIndex =
      sampleDragX.photoIndex + 1 :=
  ⟨by decide, by show (0 : ℚ) ≤ 40; norm_num,
    (reachUp_page_turn_threshold sampleEnv sampleDragX 100 0 200 (by decide)
        (by show (0 : ℚ) ≤ 40; norm_num)).1.mpr
      ⟨by show (100 : ℚ) - 200 < -(40 : ℚ); norm_num, by decide⟩⟩

/-- C3: pull-to-close.  With an established vertical baseline and no
horizontal page turn triggered, `handleReachUp` invokes `onClose`
exactly when the absolute vertical offset exceeds 14% of the window
height and `canPullClose` holds, and in that case it sets
`overlayVisible` to `true`. -/
theorem reachUp_pull_close (env : Env) (s : SliderState)
    (clientX clientY lastY : ℚ)
    (hy : s.lastClientY = some lastY)
    (h1 : ¬(clientX - s.lastClientX.getD clientX < -env.maxMoveOffset ∧
      s.photoIndex < (env.images.length : ℤ) - 1))
    (h2 : ¬(clientX - s.lastClientX.getD clientX > env.maxMoveOffset ∧
      s.photoIndex > 0)) :
    ((handleReachUp env s clientX clientY).2 = [SliderEvent.close] ↔
      (|clientY - lastY| > env.innerHeight * (14 / 100) ∧
        s.canPullClose = true)) ∧
    ((|clientY - lastY| > env.innerHeight * (14 / 100) ∧
        s.canPullClose = true) →
      (handleReachUp env s clientX clientY).1.overlayVisible = true) := by
  simp only [handleReachUp, hy, Option.getD_some]
  rw [if_neg h1, if_neg h2]
  by_cases hp : |clientY - lastY| > env.innerHeight * (14 / 100)
  · by_cases hc : s.canPullClose = true
    · simp [hp, hc]
    · simp [hp, hc]
  · simp [hp]

/-- Witness for C3: a 100px pull on a 667px-high window (threshold
93.38px) closes the slider. -/
theorem reachUp_pull_close_witness :
    sampleDragY.lastClientY = some 300 ∧
    ¬((0 : ℚ) - sampleDragY.lastClientX.getD 0 < -sampleEnv.maxMoveOffset ∧
      sampleDragY.photoIndex < (sampleEnv.images.length : ℤ) - 1) ∧
    ¬((0 : ℚ) - sampleDragY.lastClientX.getD 0 > sampleEnv.maxMoveOffset ∧
      sampleDragY.photoIndex > 0) ∧
    (handleReachUp sampleEnv sampleDragY 0 400).2 = [SliderEvent.close] ∧
    (handleReachUp sampleEnv sampleDragY 0 400).1.overlayVisible = true :=
  have hp : |(400 : ℚ) - 300| > sampleEnv.innerHeight * (14 / 100) := by
    show |(400 : ℚ) - 300| > 667 * (14 / 100)
    rw [show (400 : ℚ) - 300 = 100 by norm_num, abs_of_nonneg (by norm_num)]
    norm_num
  have h1 : ¬((0 : ℚ) - sampleDragY.lastClientX.getD 0 <
      -sampleEnv.maxMoveOffset ∧
      sampleDragY.photoIndex < (sampleEnv.images.length : ℤ) - 1) :=
    fun h => absurd h.1 (by show ¬((0 : ℚ) - 0 < -(40 : ℚ)); norm_num)
  have h2 : ¬((0 : ℚ) - sampleDragY.lastClientX.getD 0 >
      sampleEnv.maxMoveOffset ∧ sampleDragY.photoIndex > 0) :=
    fun h => absurd h.1 (by show ¬((0 : ℚ) - 0 > (40 : ℚ)); norm_num)
  ⟨by decide, h1, h2,
    (reachUp_pull_close sampleEnv sampleDragY 0 400 300 (by decide) h1 h2).1.mpr
      ⟨hp, by decide⟩,
    (reachUp_pull_close sampleEnv sampleDragY 0 400 300 (by decide) h1 h2).2
      ⟨hp, by decide⟩⟩

/-- C8: snap-back on release.  When `handleReachUp` does not trigger a
page turn (whether or not it closes), the state keeps its `photoIndex`,
re-aligns `translateX` on it, restores the default backdrop opacity,
clears `touched` and both gesture baselines. -/
theorem reachUp_snap_back (env : Env) (s : SliderState)
    (clientX clientY : ℚ)
    (h1 : ¬(clientX - s.lastClientX.getD clientX < -env.maxMoveOffset ∧
      s.photoIndex < (env.images.length : ℤ) - 1))
    (h2 : ¬(clientX - s.lastClientX.getD clientX > env.maxMoveOffset ∧
      s.photoIndex > 0)) :
    (handleReachUp env s clientX clientY).1.photoIndex = s.photoIndex ∧
    (handleReachUp env s clientX clientY).1.translateX =
      -(env.innerWidth + env.horizontalOffset) * (s.photoIndex : ℚ) ∧
    (handleReachUp env s clientX clientY).1.backdropOpacity =
      env.defaultOpacity ∧
    (handleReachUp env s clientX clientY).1.touched = false ∧
    (handleReachUp env s clientX clientY).1.lastClientX = none ∧
    (handleReachUp env s clientX clientY).1.lastClientY = none := by
  simp only [handleReachUp]
  rw [if_neg h1, if_neg h2]
  simp

/-- Witness for C8: releasing after a 10px drag snaps back to page 1. -/
theorem reachUp_snap_back_witness :
    ¬((210 : ℚ) - sampleDragX.lastClientX.getD 210 < -sampleEnv.maxMoveOffset ∧
      sampleDragX.photoIndex < (sampleEnv.images.length : ℤ) - 1) ∧
    ¬((210 : ℚ) - sampleDragX.lastClientX.getD 210 > sampleEnv.maxMoveOffset ∧
      sampleDragX.photoIndex > 0) ∧
    ((handleReachUp sampleEnv sampleDragX 210 0).1.photoIndex =
        sampleDragX.photoIndex ∧
      (handleReachUp sampleEnv sampleDragX 210 0).1.translateX =
        -(sampleEnv.innerWidth + sampleEnv.horizontalOffset) *
          (sampleDragX.photoIndex : ℚ) ∧
      (handleReachUp sampleEnv sampleDragX 210 0).1.backdropOpacity =
        sampleEnv.defaultOpacity ∧
      (handleReachUp sampleEnv sampleDragX 210 0).1.touched = false ∧
      (handleReachUp sampleEnv sampleDragX 210 0).1.lastClientX = none ∧
      (handleReachUp sampleEnv sampleDragX 210 0).1.lastClientY = none) :=
  have h1 : ¬((210 : ℚ) - sampleDragX.lastClientX.getD 210 <
      -sampleEnv.maxMoveOffset ∧
      sampleDragX.photoIndex < (sampleEnv.images.length : ℤ) - 1) :=
    fun h => absurd h.1 (by show ¬((210 : ℚ) - 200 < -(40 : ℚ)); norm_num)
  have h2 : ¬((210 : ℚ) - sampleDragX.lastClientX.getD 210 >
      sampleEnv.maxMoveOffset ∧ sampleDragX.photoIndex > 0) :=
    fun h => absurd h.1 (by show ¬((210 : ℚ) - 200 > (40 : ℚ)); norm_num)
  ⟨h1, h2, reachUp_snap_back sampleEnv sampleDragX 210 0 h1 h2⟩

/-- C6: navigation keeps the index in bounds.  From an in-bounds state,
`handlePrevious` decrements only above index 0 and `handleNext`
increments only below the last index; at the bounds they return the
state (and emit nothing), and both results stay in bounds. -/
theorem navigation_keeps_index_in_bounds (env : Env) (s : SliderState)
    (st : Option Bool)
    (h0 : 0 ≤ s.photoIndex)
    (h1 : s.photoIndex ≤ (env.images.length : ℤ) - 1) :
    (0 < s.photoIndex →
      (handlePrevious env s st).1.photoIndex = s.photoIndex - 1) ∧
    (s.photoIndex = 0 → handlePrevious env s st = (s, [])) ∧
    (s.photoIndex < (env.images.length : ℤ) - 1 →
      (handleNext env s st).1.photoIndex = s.photoIndex + 1) ∧
    (s.photoIndex = (env.images.length : ℤ) - 1 →
      handleNext env s st = (s, [])) ∧
    (0 ≤ (handlePrevious env s st).1.photoIndex ∧
      (handlePrevious env s st).1.photoIndex ≤
        (env.images.length : ℤ) - 1) ∧
    (0 ≤ (handleNext env s st).1.photoIndex ∧
      (handleNext env s st).1.photoIndex ≤ (env.images.length : ℤ) - 1) := by
  refine ⟨fun hpos => ?_, fun hz => ?_, fun hlt => ?_, fun heq => ?_, ?_, ?_⟩
  · simp only [handlePrevious]
    rw [if_pos hpos]
    simp [handleIndexChange]
  · simp only [handlePrevious]
    rw [if_neg (by omega)]
  · simp only [handleNext]
    rw [if_pos hlt]
    simp [handleIndexChange]
  · simp only [handleNext]
    rw [if_neg (by omega)]
  · simp only [handlePrevious]
    split_ifs with hp
    · simp only [handleIndexChange]
      constructor <;> [omega; omega]
    · exact ⟨h0, h1⟩
  · simp only [handleNext]
    split_ifs with hp
    · simp only [handleIndexChange]
      constructor <;> [omega; omega]
    · exact ⟨h0, h1⟩

/-- Witness for C6: from page 1 of three images both neighbours are
reachable and the next-result stays in bounds. -/
theorem navigation_keeps_index_in_bounds_witness :
    0 ≤ sampleRest.photoIndex ∧
    sampleRest.photoIndex ≤ (sampleEnv.images.length : ℤ) - 1 ∧
    (handlePrevious sampleEnv sampleRest none).1.photoIndex =
      sampleRest.photoIndex - 1 ∧
    (handleNext sampleEnv sampleRest none).1.photoIndex =
      sampleRest.photoIndex + 1 ∧
    (0 ≤ (handleNext sampleEnv sampleRest none).1.photoIndex ∧
      (handleNext sampleEnv sampleRest none).1.photoIndex ≤
        (sampleEnv.images.length : ℤ) - 1) :=
  ⟨by decide, by decide,
    (navigation_keeps_index_in_bounds sampleEnv sampleRest none (by decide)
        (by decide)).1 (by decide),
    (navigation_keeps_index_in_bounds sampleEnv sampleRest none (by decide)
        (by decide)).2.2.1 (by decide),
    (navigation_keeps_index_in_bounds sampleEnv sampleRest none (by decide)
        (by decide)).2.2.2.2.2⟩

/-- C10: every operation that moves the slider to a resting page
re-establishes `translateX = -(innerWidth + horizontalOffset) *
photoIndex`: `getDerivedStateFromProps` when the `index` prop is defined
and differs (returning `null` otherwise), `componentDidMount` for the
initial index, `handleResize` for the current index, and
`handleIndexChange` for the new index. -/
theorem resting_alignment (env : Env) (s : SliderState) :
    (∀ i : ℤ, env.index = some i → i ≠ s.photoIndex →
      getDerivedStateFromProps env s = some { s with
        photoIndex := i
        translateX := -(env.innerWidth + env.horizontalOffset) * (i : ℚ) }) ∧
    (env.index = none ∨ env.index = some s.photoIndex →
      getDerivedStateFromProps env s = none) ∧
    ((componentDidMount env s).translateX =
      -(env.innerWidth + env.horizontalOffset) *
        ((componentDidMount env s).photoIndex : ℚ)) ∧
    ((handleResize env s).translateX =
      -(env.innerWidth + env.horizontalOffset) *
        ((handleResize env s).photoIndex : ℚ)) ∧
    (∀ (i : ℤ) (st : Bool),
      (handleIndexChange env s i st).1.translateX =
        -(env.innerWidth + env.horizontalOffset) *
          ((handleIndexChange env s i st).1.photoIndex : ℚ)) := by
  refine ⟨?_, ?_, ?_, ?_, ?_⟩
  · intro i hi hne
    simp [getDerivedStateFromProps, hi, hne]
  · rintro (hi | hi) <;> simp [getDerivedStateFromProps, hi]
  · simp only [componentDidMount]
    ring
  · simp [handleResize]
  · intro i st
    simp [handleIndexChange]

/-- Witness for C10: adopting the `index` prop 2 from page 1 re-aligns
the slider on page 2. -/
theorem resting_alignment_witness :
    ({ sampleEnv with index := some 2 } : Env).index = some 2 ∧
    (2 : ℤ) ≠ sampleRest.photoIndex ∧
    getDerivedStateFromProps { sampleEnv with index := some 2 } sampleRest =
      some { sampleRest with
        photoIndex := 2
        translateX :=
          -(({ sampleEnv with index := some 2 } : Env).innerWidth +
              ({ sampleEnv with index := some 2 } : Env).horizontalOffset) *
            ((2 : ℤ) : ℚ) } :=
  ⟨rfl, by decide,
    (resting_alignment { sampleEnv with index := some 2 } sampleRest).1 2 rfl
      (by decide)⟩

/-! ### Supporting list lemmas for the render window -/

/-- Unfolding `mapWithIdx` as a map over the index range. -/
theorem mapWithIdx_eq_range_map (f : ℕ → α → β) (d : α) (l : List α) :
    ∀ n : ℕ, mapWithIdx f n l =
      (List.range l.length).map fun k => f (n + k) (l.getD k d) := by
  induction l with
  | nil => intro n; simp [mapWithIdx]
  | cons a t ih =>
      intro n
      rw [mapWithIdx, ih (n + 1), List.length_cons, List.range_succ_eq_map,
        List.map_cons, List.map_map]
      refine congrArg₂ List.cons ?_ ?_
      · simp
      · apply List.map_congr_left
        intro k hk
        simp only [Function.comp_apply, Nat.succ_eq_add_one,
          List.getD_cons_succ]
        congr 1
        omega

/-- Reading inside a `drop`-then-`take` window. -/
theorem drop_take_getD (l : List α) (a t k : ℕ) (d : α) (hk : k < t) :
    ((l.drop a).take t).getD k d = l.getD (a + k) d := by
  rw [List.getD_eq_getElem?_getD, List.getD_eq_getElem?_getD,
    List.getElem?_take, if_pos hk, List.getElem?_drop]

/-- Members of `intRange a b` lie between `a` and `b`. -/
theorem mem_intRange {a b i : ℤ} (h : i ∈ intRange a b) : a ≤ i ∧ i ≤ b := by
  simp only [intRange, List.mem_map, List.mem_range] at h
  obtain ⟨k, hk, rfl⟩ := h
  rw [Int.lt_toNat] at hk
  omega

/-- The list `List.range n` holds each of its members exactly once. -/
theorem countP_range_eq_one (n m : ℕ) (h : m < n) :
    (List.range n).countP (fun k => decide (k = m)) = 1 := by
  induction n with
  | zero => omega
  | succ n ih =>
      rw [List.range_succ, List.countP_append]
      by_cases hm : m = n
      · subst hm
        rw [List.countP_eq_zero.mpr ?_]
        · simp
        · intro k hk
          simp only [List.mem_range] at hk
          simp only [decide_eq_true_eq]
          omega
      · rw [ih (by omega)]
        have hz : (List.countP (fun k => decide (k = m)) [n]) = 0 := by
          simp [List.countP_cons]
          omega
        omega

/-- Normal form of `renderItems` for an in-bounds index: a map over the
integer window `[max (photoIndex - 1) 0, min (photoIndex + 1)
(length - 1)]`. -/
theorem renderItems_eq_map (env : Env) (s : SliderState)
    (h0 : 0 ≤ s.photoIndex)
    (h1 : s.photoIndex ≤ (env.images.length : ℤ) - 1) :
    renderItems env s =
      (intRange (max (s.photoIndex - 1) 0)
        (min (s.photoIndex + 1) ((env.images.length : ℤ) - 1))).map
        (fun i =>
          { item := env.images.getD i.toNat default
            realIndex := i
            isActive := decide (s.photoIndex = i) }) := by
  rw [renderItems, jsSlice]
  simp only
  rw [if_neg (by omega : ¬ (max (s.photoIndex - 1) 0 < 0)),
    if_neg (by omega :
      ¬ (min (s.photoIndex + 2) ((env.images.length : ℤ) + 1) < 0))]
  rw [(by omega : min (max (s.photoIndex - 1) 0) (env.images.length : ℤ) =
      max (s.photoIndex - 1) 0)]
  rw [(by omega :
      min (min (s.photoIndex + 2) ((env.images.length : ℤ) + 1))
          (env.images.length : ℤ) =
        min (s.photoIndex + 2) (env.images.length : ℤ))]
  rw [mapWithIdx_eq_range_map _ default _ 0]
  rw [intRange, List.map_map]
  rw [List.length_take, List.length_drop]
  rw [(by omega :
      (min (s.photoIndex + 2) (env.images.length : ℤ) -
          max (s.photoIndex - 1) 0).toNat ⊓
        (env.images.length - (max (s.photoIndex - 1) 0).toNat) =
      (min (s.photoIndex + 2) (env.images.length : ℤ) -
        max (s.photoIndex - 1) 0).toNat)]
  rw [(by omega :
      (min (s.photoIndex + 1) ((env.images.length : ℤ) - 1) + 1 -
          max (s.photoIndex - 1) 0).toNat =
      (min (s.photoIndex + 2) (env.images.length : ℤ) -
        max (s.photoIndex - 1) 0).toNat)]
  apply List.map_congr_left
  intro k hk
  simp only [List.mem_range] at hk
  simp only [Function.comp_apply]
  rw [drop_take_getD _ _ _ _ _ hk]
  have hri : (if s.photoIndex = 0 then s.photoIndex + ((0 + k : ℕ) : ℤ)
      else s.photoIndex - 1 + ((0 + k : ℕ) : ℤ)) =
      max (s.photoIndex - 1) 0 + (k : ℤ) := by
    split_ifs <;> omega
  have hidx : (max (s.photoIndex - 1) 0).toNat + k =
      (max (s.photoIndex - 1) 0 + (k : ℤ)).toNat := by omega
  simp only [RenderedItem.mk.injEq]
  refine ⟨by rw [hidx], by rw [hri], by rw [hri]⟩

/-- C9: rendering loads only the window of at most three adjacent
images.  For an in-bounds `photoIndex` the rendered items range exactly
over the true indices `max (photoIndex - 1) 0` through
`min (photoIndex + 1) (length - 1)`, each item really is the image at
its `realIndex`, and exactly the item whose `realIndex` equals
`photoIndex` is active; with an empty `images` list, `currentImage` is
`undefined`. -/
theorem render_adjacent_window :
    (∀ (env : Env) (s : SliderState), 0 ≤ s.photoIndex →
      s.photoIndex ≤ (env.images.length : ℤ) - 1 →
      ((renderItems env s).map RenderedItem.realIndex =
        intRange (max (s.photoIndex - 1) 0)
          (min (s.photoIndex + 1) ((env.images.length : ℤ) - 1))) ∧
      (∀ r ∈ renderItems env s,
        jsIndex env.images r.realIndex = some r.item) ∧
      ((renderItems env s).countP (fun r => r.isActive) = 1) ∧
      (∀ r ∈ renderItems env s,
        (r.isActive = true ↔ r.realIndex = s.photoIndex))) ∧
    (∀ (env : Env) (s : SliderState), env.images = [] →
      currentImage env s = none) := by
  constructor
  · intro env s h0 h1
    rw [renderItems_eq_map env s h0 h1]
    refine ⟨?_, ?_, ?_, ?_⟩
    · rw [List.map_map]
      exact (List.map_congr_left fun i _ => rfl).trans (List.map_id _)
    · intro r hr
      rw [List.mem_map] at hr
      obtain ⟨i, hi, rfl⟩ := hr
      obtain ⟨hai, hib⟩ := mem_intRange hi
      have hlt : i.toNat < env.images.length := by omega
      rw [jsIndex, if_pos (by omega : (0:ℤ) ≤ i)]
      rw [List.get?_eq_getElem?, List.getElem?_eq_getElem hlt]
      simp only [List.getD_eq_getElem env.images default hlt]
    · rw [List.countP_map, intRange, List.countP_map]
      rw [List.countP_congr (q := fun k : ℕ =>
          decide (k = (s.photoIndex - max (s.photoIndex - 1) 0).toNat)) ?_]
      · exact countP_range_eq_one _ _ (by omega)
      · intro k hk
        simp only [Function.comp_apply, decide_eq_true_eq]
        omega
    · intro r hr
      rw [List.mem_map] at hr
      obtain ⟨i, hi, rfl⟩ := hr
      simp only [decide_eq_true_eq]
      constructor
      · intro h; omega
      · intro h; omega
  · intro env s h
    simp [currentImage, h]

/-- Witness for C9: page 1 of the three-image gallery renders realIndex
window `[0, 2]` with one active item, and an emptied gallery has no
current image. -/
theorem render_adjacent_window_witness :
    0 ≤ sampleRest.photoIndex ∧
    sampleRest.photoIndex ≤ (sampleEnv.images.length : ℤ) - 1 ∧
    (renderItems sampleEnv sampleRest).map RenderedItem.realIndex =
      intRange (max (sampleRest.photoIndex - 1) 0)
        (min (sampleRest.photoIndex + 1)
          ((sampleEnv.images.length : ℤ) - 1)) ∧
    (renderItems sampleEnv sampleRest).countP (fun r => r.isActive) = 1 ∧
    currentImage { sampleEnv with images := [] } sampleRest = none :=
  ⟨by decide, by decide,
    (render_adjacent_window.1 sampleEnv sampleRest (by decide) (by decide)).1,
    (render_adjacent_window.1 sampleEnv sampleRest (by decide)
        (by decide)).2.2.1,
    render_adjacent_window.2 { sampleEnv with images := [] } sampleRest rfl⟩

end PhotoSlider
